import Mathlib

/-!
Verification of `faust/serializers/registry.py` (the `Registry` class).

The Python module is embedded shallowly:

* Python runtime values become the inductive `PyVal`; `None` is `PyVal.pyNone`,
  `bytes` payloads are lists of naturals, model instances carry their model
  type (`ModelType`, mirroring `Type[ModelT]` with its `_options.serializer`).
* Python exceptions become `PyErr`; a function that can raise returns
  `Except PyErr PyVal`.  `MemoryError` is the distinguished
  `PyErr.memoryError` constructor.
* The external collaborators (the codec capability `codecs.loads` /
  `codecs.dumps`, the model capability's `dumps` method and the global
  tag-to-type registry) are an abstract environment `Env`: the theorems
  quantify over every environment.
* `CodecArg` values are `Option String`; Python truthiness (`None` and the
  empty string are falsy) and the `x or y` idiom are made explicit
  (`CodecArg.truthy`, `pyOr`).
-/

namespace FaustRegistry

/-- `CodecArg = Union[str, Codec, None]`; codecs are identified by name here,
so a codec argument is `none` (Python `None`) or a codec name. -/
abbrev CodecArg := Option String

/-- Python truthiness of a `CodecArg`: `None` and the empty string are falsy. -/
def CodecArg.truthy : CodecArg → Bool
  | none => false
  | some s => !s.isEmpty

/-- Python's `a or b` on codec arguments. -/
def pyOr (a b : CodecArg) : CodecArg :=
  if a.truthy then a else b

/-- The `_options` object of a model type; only the `serializer` field is
read by the registry (`typ._options.serializer`). -/
structure ModelOptions where
  serializer : CodecArg
deriving DecidableEq, Repr

/-- A model type (`Type[ModelT]`): identified by a numeric id, carrying its
declared options. -/
structure ModelType where
  id : Nat
  options : ModelOptions
deriving DecidableEq, Repr

/-- Python runtime values crossing the registry's interface. -/
inductive PyVal where
  | pyNone
  | bytes (data : List Nat)
  | str (s : String)
  | int (n : Int)
  /-- A decoded composite primitive (e.g. a mapping), possibly carrying an
  embedded type tag ("namespace"); the payload is opaque. -/
  | record (ns : Option Nat) (payload : Nat)
  /-- A model instance: its concrete type and the data it was built from. -/
  | model (cls : ModelType) (data : PyVal)
deriving DecidableEq, Repr

/-- `isinstance(v, ModelT)`. -/
def PyVal.isModel : PyVal → Bool
  | .model _ _ => true
  | _ => false

/-- `isinstance(v, bytes)`. -/
def PyVal.isBytes : PyVal → Bool
  | .bytes _ => true
  | _ => false

/-- Python exceptions visible to the registry. -/
inductive PyErr where
  | memoryError
  | exn (message : String)
  | keyDecodeError (message : String) (cause : PyErr)
  | valueDecodeError (message : String) (cause : PyErr)
deriving DecidableEq, Repr

/-- `str(exc)`. -/
def PyErr.msg : PyErr → String
  | .memoryError => "MemoryError"
  | .exn m => m
  | .keyDecodeError m _ => m
  | .valueDecodeError m _ => m

/-- Modelled from the spec: `want_str` from `faust/utils/compat.py` is not
under `src/`; the spec describes the helpers as boundary coercions to text
(§6) while its invariant section states that a value that is already a model
instance undergoes no further coercion.  So: bytes are decoded to text
(failing with a coercion error when not decodable), text is returned as is,
and any other value (in particular a model instance) passes through. -/
def want_str : PyVal → Except PyErr PyVal
  | .bytes b =>
    if ∀ n ∈ b, Nat.isValidChar n then
      .ok (.str ⟨b.map Char.ofNat⟩)
    else
      .error (.exn "CoercionError: cannot coerce to text")
  | v => .ok v

/-- Modelled from the spec: `want_bytes` from `faust/utils/compat.py` is not
under `src/`; text is encoded to bytes (its character codes), bytes are
returned as is, and any other value (in particular a model instance) passes
through uncoerced. -/
def want_bytes : PyVal → Except PyErr PyVal
  | .str s => .ok (.bytes (s.data.map Char.toNat))
  | v => .ok v

instance {ε α : Type} [DecidableEq ε] [DecidableEq α] : DecidableEq (Except ε α) :=
  fun a b =>
  match a, b with
  | .ok x, .ok y =>
    if h : x = y then .isTrue (by rw [h]) else .isFalse (fun he => h (Except.ok.inj he))
  | .error x, .error y =>
    if h : x = y then .isTrue (by rw [h]) else .isFalse (fun he => h (Except.error.inj he))
  | .ok _, .error _ => .isFalse (fun he => Except.noConfusion he)
  | .error _, .ok _ => .isFalse (fun he => Except.noConfusion he)

/-- The external capabilities consumed by the registry: the codec capability
(`codecs.loads` / `codecs.dumps`), the global tag-to-type model registry, and
the model instances' own `dumps` method. -/
structure Env where
  codecLoads : CodecArg → PyVal → Except PyErr PyVal
  codecDumps : CodecArg → PyVal → Except PyErr PyVal
  modelRegistry : Nat → Option ModelType
  modelDumps : ModelType → PyVal → CodecArg → Except PyErr PyVal

/-- Modelled from the spec: `Model._maybe_namespace` (in `faust/models/base.py`,
not under `src/`) asks whether a decoded primitive carries a type tag
recognized by the global model registry and returns the concrete type. -/
def maybe_namespace (env : Env) (data : PyVal) : Option ModelType :=
  match data with
  | .record (some ns) _ => env.modelRegistry ns
  | _ => none

/-- Modelled from the spec: constructing a model type from a decoded
primitive (`typ(data)` / `self_cls(data)`) yields an instance of that type
carrying the primitive. -/
def constructModel (cls : ModelType) (data : PyVal) : PyVal :=
  .model cls data

/-- Modelled from the spec: `Model._maybe_reconstruct` (in
`faust/models/base.py`, not under `src/`): when the decoded primitive carries
a recognized type tag, rehydrate to that concrete model type; otherwise keep
the primitive as is. -/
def maybe_reconstruct (env : Env) (data : PyVal) : PyVal :=
  match maybe_namespace env data with
  | some self_cls => constructModel self_cls data
  | none => data

/-- The `typ` argument of the decode operations (`Optional[ModelArg]`):
`str`, `bytes`, or a model type (`None` is `Option.none` at use sites). -/
inductive TargetType where
  | tStr
  | tBytes
  | tModel (cls : ModelType)
deriving DecidableEq, Repr

/-- The registry: the two channel defaults set in `__init__`. -/
structure Registry where
  key_serializer : CodecArg
  value_serializer : CodecArg
deriving DecidableEq, Repr

namespace Registry

/-- `Registry._loads`: delegate to the codec capability. -/
def _loads (env : Env) (serializer : CodecArg) (data : PyVal) : Except PyErr PyVal :=
  env.codecLoads serializer data

/-- `Registry._loads_model`: decode with `typ._options.serializer or
default_serializer`, then instantiate the tag's concrete type when recognized
and `typ` otherwise.  When `typ` is not a model type, reading `_options`
raises (`AttributeError`), which the embedding surfaces as an `exn`. -/
def _loads_model (env : Env) (typ : Option TargetType) (default_serializer : CodecArg)
    (data : PyVal) : Except PyErr PyVal :=
  match typ with
  | some (.tModel cls) =>
    match _loads env (pyOr cls.options.serializer default_serializer) data with
    | .error e => .error e
    | .ok data =>
      match maybe_namespace env data with
      | some self_cls => .ok (constructModel self_cls data)
      | none => .ok (constructModel cls data)
  | _ => .error (.exn "AttributeError: _options")

/-- The `try:` block of `loads_key`, with `serializer` already resolved. -/
def loads_key_body (env : Env) (typ : Option TargetType) (serializer : CodecArg)
    (key : PyVal) : Except PyErr PyVal :=
  if key.isModel then
    _loads_model env typ serializer key
  else
    match _loads env serializer key with
    | .error e => .error e
    | .ok decoded =>
      let k := maybe_reconstruct env decoded
      match typ with
      | none => .ok k
      | some .tStr => want_str k
      | some .tBytes => want_bytes k
      | some (.tModel cls) => if k.isModel then .ok k else .ok (constructModel cls k)

/-- The `except` clauses shared by the decode operations: `MemoryError` is
re-raised unchanged, anything else is wrapped by `mk (str exc)` with the
original failure as cause (`raise ... from exc`). -/
def wrapExcept (mk : String → PyErr → PyErr) :
    Except PyErr PyVal → Except PyErr PyVal
  | .ok v => .ok v
  | .error e =>
    if e = .memoryError then .error .memoryError else .error (mk e.msg e)

/-- `Registry.loads_key`. -/
def loads_key (env : Env) (r : Registry) (typ : Option TargetType) (key : PyVal)
    (serializer : CodecArg) : Except PyErr PyVal :=
  if key = .pyNone then
    .ok key
  else
    let serializer := pyOr serializer r.key_serializer
    wrapExcept .keyDecodeError (loads_key_body env typ serializer key)

/-- The `try:` block of `loads_value` (serializer resolution is inside the
`try` in the source; `pyOr` cannot raise, so it is resolved here). -/
def loads_value_body (env : Env) (r : Registry) (typ : Option TargetType)
    (value : PyVal) (serializer : CodecArg) : Except PyErr PyVal :=
  let serializer := pyOr serializer r.value_serializer
  if value.isModel then
    _loads_model env typ serializer value
  else
    let typ := if typ = none then some .tBytes else typ
    match _loads env serializer value with
    | .error e => .error e
    | .ok decoded =>
      let v := maybe_reconstruct env decoded
      match typ with
      | some .tStr => want_str v
      | some .tBytes => want_bytes v
      | some (.tModel cls) => if v.isModel then .ok v else .ok (constructModel cls v)
      | none => .ok v

/-- `Registry.loads_value`. -/
def loads_value (env : Env) (r : Registry) (typ : Option TargetType) (value : PyVal)
    (serializer : CodecArg) : Except PyErr PyVal :=
  if value = .pyNone then
    .ok .pyNone
  else
    wrapExcept .valueDecodeError (loads_value_body env r typ value serializer)

/-- The default `skip` argument of the encode operations: `(bytes,)`. -/
def skipDefault (v : PyVal) : Bool :=
  v.isBytes

/-- `Registry.dumps_key`.  The source's first statement
`serializer = self.key_serializer` discards the per-call argument. -/
def dumps_key (env : Env) (r : Registry) (key : PyVal) (serializer : CodecArg)
    (skip : PyVal → Bool) : Except PyErr PyVal :=
  let serializer := r.key_serializer
  match key with
  | .model cls data =>
    let serializer := pyOr cls.options.serializer serializer
    if serializer.truthy && !skip (.model cls data) then
      env.modelDumps cls data serializer
    else
      want_bytes (.model cls data)
  | .pyNone =>
    if serializer.truthy && !skip .pyNone then
      env.codecDumps serializer .pyNone
    else
      .ok .pyNone
  | key =>
    if serializer.truthy && !skip key then
      env.codecDumps serializer key
    else
      want_bytes key

/-- `Registry.dumps_value`.  Unlike `dumps_key`, the per-call serializer is
honored (`serializer or self.value_serializer`), and the fallthrough returns
`value` as passed (`cast(bytes, value)`), with no bytes coercion. -/
def dumps_value (env : Env) (r : Registry) (value : PyVal) (serializer : CodecArg)
    (skip : PyVal → Bool) : Except PyErr PyVal :=
  let serializer := pyOr serializer r.value_serializer
  match value with
  | .model cls data =>
    let serializer := pyOr cls.options.serializer serializer
    if serializer.truthy && !skip (.model cls data) then
      env.modelDumps cls data serializer
    else
      .ok (.model cls data)
  | value =>
    if serializer.truthy && !skip value then
      env.codecDumps serializer value
    else
      .ok value

end Registry

/-! Concrete instances used by the witnesses and counterexamples. -/

/-- A model type with no declared codec. -/
def mA : ModelType := ⟨1, ⟨none⟩⟩

/-- A second, distinct model type with no declared codec. -/
def mB : ModelType := ⟨2, ⟨none⟩⟩

/-- A model type declaring its own codec. -/
def mC : ModelType := ⟨3, ⟨some "pickle"⟩⟩

/-- An environment whose codec decodes to the input unchanged and whose model
registry recognizes tag `1` as `mA`. -/
def envId : Env where
  codecLoads := fun _ v => .ok v
  codecDumps := fun _ _ => .ok (.record none 7)
  modelRegistry := fun n => if n = 1 then some mA else none
  modelDumps := fun _ _ _ => .ok (.bytes [9])

/-- An environment whose codec always fails decoding. -/
def errEnv : Env where
  codecLoads := fun _ _ => .error (.exn "boom")
  codecDumps := fun _ v => .ok v
  modelRegistry := fun _ => none
  modelDumps := fun _ _ _ => .ok (.bytes [9])

/-- An environment whose codec encodes like `json`: in particular encoding
`None` yields the bytes of the text `null`. -/
def jsonEnv : Env where
  codecLoads := fun _ v => .ok v
  codecDumps := fun _ _ => .ok (.bytes [110, 117, 108, 108])
  modelRegistry := fun _ => none
  modelDumps := fun _ _ _ => .ok (.bytes [9])

/-! Helper lemmas about `pyOr`. -/

theorem pyOr_none (b : CodecArg) : pyOr none b = b := rfl

theorem pyOr_self (a : CodecArg) : pyOr a a = a := by
  unfold pyOr
  split <;> rfl

theorem pyOr_truthy (a b : CodecArg) (h : a.truthy = true) : pyOr a b = a := by
  simp [pyOr, h]

/-! The claims. -/

/-- Claim C1: for every target type, input and override, when the decode body
of `loads_key` fails, the raised error is a `KeyDecodeError` carrying the
original failure's message and chained to the original failure as its cause —
except that a `MemoryError` propagates unwrapped; likewise `loads_value` with
`ValueDecodeError`. -/
theorem loads_error_classification (env : Env) (r : Registry) (typ : Option TargetType)
    (key value : PyVal) (s : CodecArg) (c : PyErr)
    (hknn : key ≠ .pyNone) (hvnn : value ≠ .pyNone) :
    (Registry.loads_key_body env typ (pyOr s r.key_serializer) key = .error c →
      (c = .memoryError ∧ Registry.loads_key env r typ key s = .error .memoryError) ∨
      (c ≠ .memoryError ∧
        Registry.loads_key env r typ key s = .error (.keyDecodeError c.msg c))) ∧
    (Registry.loads_value_body env r typ value s = .error c →
      (c = .memoryError ∧ Registry.loads_value env r typ value s = .error .memoryError) ∨
      (c ≠ .memoryError ∧
        Registry.loads_value env r typ value s = .error (.valueDecodeError c.msg c))) := by
  constructor
  · intro hbody
    by_cases hc : c = .memoryError
    · exact Or.inl ⟨hc, by simp [Registry.loads_key, hknn, Registry.wrapExcept, hbody, hc]⟩
    · exact Or.inr ⟨hc, by simp [Registry.loads_key, hknn, Registry.wrapExcept, hbody, hc]⟩
  · intro hbody
    by_cases hc : c = .memoryError
    · exact Or.inl ⟨hc, by simp [Registry.loads_value, hvnn, Registry.wrapExcept, hbody, hc]⟩
    · exact Or.inr ⟨hc, by simp [Registry.loads_value, hvnn, Registry.wrapExcept, hbody, hc]⟩

/-- Witness for C1: with an always-failing codec, decoding the key bytes `[0]`
raises `KeyDecodeError` with the original message and cause, and decoding the
same value bytes raises `ValueDecodeError` likewise. -/
theorem loads_error_classification_witness :
    (((PyErr.exn "boom") = .memoryError ∧
        Registry.loads_key errEnv ⟨none, none⟩ none (.bytes [0]) none =
          .error .memoryError) ∨
      ((PyErr.exn "boom") ≠ .memoryError ∧
        Registry.loads_key errEnv ⟨none, none⟩ none (.bytes [0]) none =
          .error (.keyDecodeError (PyErr.exn "boom").msg (.exn "boom")))) ∧
    (((PyErr.exn "boom") = .memoryError ∧
        Registry.loads_value errEnv ⟨none, none⟩ none (.bytes [0]) none =
          .error .memoryError) ∨
      ((PyErr.exn "boom") ≠ .memoryError ∧
        Registry.loads_value errEnv ⟨none, none⟩ none (.bytes [0]) none =
          .error (.valueDecodeError (PyErr.exn "boom").msg (.exn "boom")))) := by
  have h := loads_error_classification errEnv ⟨none, none⟩ none (.bytes [0]) (.bytes [0])
    none (.exn "boom") (by decide) (by decide)
  exact ⟨h.1 (by decide), h.2 (by decide)⟩

/-- Claim C2: for every environment, registry, target type and override,
`loads_key` on a `None` key and `loads_value` on a `None` value return `None`;
the result holds for every environment, so no codec, reconstruction or
coercion capability is consulted. -/
theorem loads_none_shortcircuit (env : Env) (r : Registry) (typ : Option TargetType)
    (s : CodecArg) :
    Registry.loads_key env r typ .pyNone s = .ok .pyNone ∧
    Registry.loads_value env r typ .pyNone s = .ok .pyNone := by
  exact ⟨rfl, rfl⟩

/-- Claim C3: for a non-model (and non-bytes) input, `dumps_key` ignores its
per-call serializer argument entirely and encodes with the registry's key
default, while `dumps_value` with a truthy per-call serializer encodes with
that serializer in preference to the registry's value default. -/
theorem dumps_serializer_asymmetry (env : Env) (r : Registry) (k v : PyVal) (s s' : CodecArg)
    (hkm : k.isModel = false) (hkb : k.isBytes = false)
    (hkt : r.key_serializer.truthy = true)
    (hvm : v.isModel = false) (hvb : v.isBytes = false) (hst : s.truthy = true) :
    Registry.dumps_key env r k s Registry.skipDefault =
      Registry.dumps_key env r k s' Registry.skipDefault ∧
    Registry.dumps_key env r k s Registry.skipDefault = env.codecDumps r.key_serializer k ∧
    Registry.dumps_value env r v s Registry.skipDefault = env.codecDumps s v := by
  refine ⟨rfl, ?_, ?_⟩
  · cases k <;>
      simp_all [Registry.dumps_key, Registry.skipDefault, PyVal.isModel, PyVal.isBytes]
  · cases v <;>
      simp_all [Registry.dumps_value, Registry.skipDefault, PyVal.isModel, PyVal.isBytes,
        pyOr_truthy]

/-- Witness for C3: key default `json`, value default `None`; a text key is
encoded with `json` whatever the per-call argument, a numeric value is encoded
with the per-call serializer `raw`. -/
theorem dumps_serializer_asymmetry_witness :
    Registry.dumps_key envId ⟨some "json", none⟩ (.str "k") (some "raw") Registry.skipDefault =
      Registry.dumps_key envId ⟨some "json", none⟩ (.str "k") none Registry.skipDefault ∧
    Registry.dumps_key envId ⟨some "json", none⟩ (.str "k") (some "raw") Registry.skipDefault =
      envId.codecDumps (some "json") (.str "k") ∧
    Registry.dumps_value envId ⟨some "json", none⟩ (.int 5) (some "raw") Registry.skipDefault =
      envId.codecDumps (some "raw") (.int 5) :=
  dumps_serializer_asymmetry envId ⟨some "json", none⟩ (.str "k") (.int 5) (some "raw") none
    (by decide) (by decide) (by decide) (by decide) (by decide) (by decide)

/-- Claim C4: for every decode call, the codec used is the per-call override
when one is given and otherwise the registry's channel default (passing no
override is the same as passing the default; with a truthy override the
default is irrelevant); and in model-typed reconstruction (`_loads_model`) and
model encode (`dumps_value` / `dumps_key` on a model instance), the model
type's own declared codec, when truthy, takes precedence over both the
per-call override and the channel default. -/
theorem serializer_precedence (env : Env) (typ : Option TargetType)
    (key value mdata : PyVal) (s d d' dv dv' : CodecArg) (t : ModelType)
    (hs : s.truthy = true) (ht : t.options.serializer.truthy = true) :
    Registry.loads_key env ⟨d, dv⟩ typ key none = Registry.loads_key env ⟨d, dv⟩ typ key d ∧
    Registry.loads_value env ⟨d, dv⟩ typ value none =
      Registry.loads_value env ⟨d, dv⟩ typ value dv ∧
    Registry.loads_key env ⟨d, dv⟩ typ key s = Registry.loads_key env ⟨d', dv⟩ typ key s ∧
    Registry.loads_value env ⟨d, dv⟩ typ value s =
      Registry.loads_value env ⟨d, dv'⟩ typ value s ∧
    Registry._loads_model env (some (.tModel t)) d mdata =
      Registry._loads_model env (some (.tModel t)) d' mdata ∧
    Registry.dumps_value env ⟨d, dv⟩ (.model t mdata) s Registry.skipDefault =
      env.modelDumps t mdata t.options.serializer ∧
    Registry.dumps_key env ⟨d, dv⟩ (.model t mdata) s Registry.skipDefault =
      env.modelDumps t mdata t.options.serializer := by
  refine ⟨?_, ?_, ?_, ?_, ?_, ?_, ?_⟩
  · simp [Registry.loads_key, pyOr_none, pyOr_self]
  · simp [Registry.loads_value, Registry.loads_value_body, pyOr_none, pyOr_self]
  · simp [Registry.loads_key, pyOr_truthy _ _ hs]
  · simp [Registry.loads_value, Registry.loads_value_body, pyOr_truthy _ _ hs]
  · simp [Registry._loads_model, pyOr_truthy _ _ ht]
  · simp [Registry.dumps_value, pyOr_truthy _ _ ht, ht, Registry.skipDefault, PyVal.isBytes]
  · simp [Registry.dumps_key, pyOr_truthy _ _ ht, ht, Registry.skipDefault, PyVal.isBytes]

/-- Witness for C4 at override `raw`, key default `json`, value default
`yaml`, and the model type `mC` whose declared codec is `pickle`. -/
theorem serializer_precedence_witness :
    Registry.loads_key envId ⟨some "json", some "yaml"⟩ none (.bytes [1]) none =
      Registry.loads_key envId ⟨some "json", some "yaml"⟩ none (.bytes [1]) (some "json") ∧
    Registry.loads_value envId ⟨some "json", some "yaml"⟩ none (.bytes [1]) none =
      Registry.loads_value envId ⟨some "json", some "yaml"⟩ none (.bytes [1]) (some "yaml") ∧
    Registry.loads_key envId ⟨some "json", some "yaml"⟩ none (.bytes [1]) (some "raw") =
      Registry.loads_key envId ⟨some "msgpack", some "yaml"⟩ none (.bytes [1]) (some "raw") ∧
    Registry.loads_value envId ⟨some "json", some "yaml"⟩ none (.bytes [1]) (some "raw") =
      Registry.loads_value envId ⟨some "json", some "avro"⟩ none (.bytes [1]) (some "raw") ∧
    Registry._loads_model envId (some (.tModel mC)) (some "json") (.bytes [1]) =
      Registry._loads_model envId (some (.tModel mC)) (some "msgpack") (.bytes [1]) ∧
    Registry.dumps_value envId ⟨some "json", some "yaml"⟩ (.model mC (.bytes [1])) (some "raw")
        Registry.skipDefault =
      envId.modelDumps mC (.bytes [1]) mC.options.serializer ∧
    Registry.dumps_key envId ⟨some "json", some "yaml"⟩ (.model mC (.bytes [1])) (some "raw")
        Registry.skipDefault =
      envId.modelDumps mC (.bytes [1]) mC.options.serializer :=
  serializer_precedence envId none (.bytes [1]) (.bytes [1]) (.bytes [1]) (some "raw")
    (some "json") (some "msgpack") (some "yaml") (some "avro") mC (by decide) (by decide)

/-- Claim C5: bytes carrying the embedded type tag of model type `A`, decoded
while requesting the distinct target type `B`, yield an instance of `A`, not
`B` — both on the raw-bytes decode path (`loads_key`) and on the
model-reconstruction path (`_loads_model`). -/
theorem tag_overrides_target (env : Env) (r : Registry) (A B : ModelType)
    (key mdata data dec : PyVal) (s s2 : CodecArg)
    (hAB : A ≠ B) (hknn : key ≠ .pyNone) (hkm : key.isModel = false)
    (hload : env.codecLoads (pyOr s r.key_serializer) key = .ok data)
    (hns : maybe_namespace env data = some A)
    (hload2 : env.codecLoads (pyOr B.options.serializer s2) mdata = .ok dec)
    (hns2 : maybe_namespace env dec = some A) :
    Registry.loads_key env r (some (.tModel B)) key s = .ok (.model A data) ∧
    Registry._loads_model env (some (.tModel B)) s2 mdata = .ok (.model A dec) ∧
    (PyVal.model A data : PyVal) ≠ .model B data := by
  refine ⟨?_, ?_, ?_⟩
  · cases key <;>
      simp_all [Registry.loads_key, Registry.loads_key_body, Registry._loads,
        maybe_reconstruct, constructModel, PyVal.isModel, Registry.wrapExcept]
  · simp [Registry._loads_model, Registry._loads, hload2, hns2, constructModel]
  · simp [hAB]

/-- Witness for C5: the identity codec decodes `record (some 1) 5`, whose tag
`1` is registered to `mA`; requesting `mB` still yields an `mA` instance. -/
theorem tag_overrides_target_witness :
    Registry.loads_key envId ⟨none, none⟩ (some (.tModel mB)) (.record (some 1) 5) none =
      .ok (.model mA (.record (some 1) 5)) ∧
    Registry._loads_model envId (some (.tModel mB)) none (.record (some 1) 5) =
      .ok (.model mA (.record (some 1) 5)) ∧
    (PyVal.model mA (.record (some 1) 5) : PyVal) ≠ .model mB (.record (some 1) 5) :=
  tag_overrides_target envId ⟨none, none⟩ mA mB (.record (some 1) 5) (.record (some 1) 5)
    (.record (some 1) 5) (.record (some 1) 5) none none (by decide) (by decide) (by decide)
    (by decide) (by decide) (by decide) (by decide)

/-- Claim C6: with no target type, `loads_value` behaves exactly as with
target type `bytes` (for every input) and so coerces the decoded result to
bytes, while `loads_key` with no target type returns the decoded,
possibly tag-reconstructed value unchanged, with no coercion applied. -/
theorem value_target_defaults_to_bytes (env : Env) (r : Registry) (raw d b : PyVal)
    (s : CodecArg)
    (hnn : raw ≠ .pyNone) (hm : raw.isModel = false)
    (hlk : env.codecLoads (pyOr s r.key_serializer) raw = .ok d)
    (hlv : env.codecLoads (pyOr s r.value_serializer) raw = .ok d)
    (hns : maybe_namespace env d = none)
    (hwb : want_bytes d = .ok b) :
    Registry.loads_key env r none raw s = .ok d ∧
    Registry.loads_value env r none raw s = .ok b ∧
    (∀ v : PyVal,
      Registry.loads_value env r none v s = Registry.loads_value env r (some .tBytes) v s) := by
  refine ⟨?_, ?_, ?_⟩
  · cases raw <;>
      simp_all [Registry.loads_key, Registry.loads_key_body, Registry._loads,
        maybe_reconstruct, PyVal.isModel, Registry.wrapExcept]
  · cases raw <;>
      simp_all [Registry.loads_value, Registry.loads_value_body, Registry._loads,
        maybe_reconstruct, PyVal.isModel, Registry.wrapExcept]
  · intro v
    cases v <;>
      simp [Registry.loads_value, Registry.loads_value_body, Registry._loads_model,
        PyVal.isModel]

/-- Witness for C6: the identity codec decodes the text value `"x"`; with no
target type `loads_key` returns the text unchanged while `loads_value`
returns its byte encoding. -/
theorem value_target_defaults_to_bytes_witness :
    Registry.loads_key envId ⟨none, none⟩ none (.str "x") none = .ok (.str "x") ∧
    Registry.loads_value envId ⟨none, none⟩ none (.str "x") none = .ok (.bytes [120]) ∧
    (∀ v : PyVal,
      Registry.loads_value envId ⟨none, none⟩ none v none =
        Registry.loads_value envId ⟨none, none⟩ (some .tBytes) v none) :=
  value_target_defaults_to_bytes envId ⟨none, none⟩ (.str "x") (.str "x") (.bytes [120]) none
    (by decide) (by decide) (by decide) (by decide) (by decide) (by decide)

/-- Claim C7: a value that is already raw bytes is returned unchanged by both
encode operations, for every environment, registry configuration and per-call
serializer: the codec is bypassed entirely. -/
theorem dumps_bytes_passthrough (env : Env) (r : Registry) (b : List Nat) (s : CodecArg) :
    Registry.dumps_key env r (.bytes b) s Registry.skipDefault = .ok (.bytes b) ∧
    Registry.dumps_value env r (.bytes b) s Registry.skipDefault = .ok (.bytes b) := by
  constructor <;>
    simp [Registry.dumps_key, Registry.dumps_value, Registry.skipDefault, PyVal.isBytes,
      want_bytes]

/-- Counterexample for C8: with the default registry configuration
(`key_serializer=None`, `value_serializer='json'`) and a json-like codec
capability, `dumps_value(None)` encodes `None` through the codec (yielding
the bytes of `null`) instead of returning `None`; so it is not the case that
both encode operations map `None` to `None` for every configuration. -/
theorem dumps_none_cex :
    ¬ (Registry.dumps_key jsonEnv ⟨none, some "json"⟩ .pyNone none Registry.skipDefault =
        .ok .pyNone ∧
       Registry.dumps_value jsonEnv ⟨none, some "json"⟩ .pyNone none Registry.skipDefault =
        .ok .pyNone) := by
  decide

/-- Claim C8 as amended: `dumps_key` applied to a `None` key returns `None`
whenever the registry's key-channel default is falsy (the per-call override
being ignored), and `dumps_value` applied to a `None` value returns `None`
whenever the resolved codec (per-call override `or` value default) is falsy;
with a truthy resolved codec, `None` is passed to the codec like any other
non-bytes value. -/
theorem dumps_none_amended (env : Env) (r : Registry) (s s' : CodecArg)
    (hk : r.key_serializer.truthy = false)
    (hv : (pyOr s r.value_serializer).truthy = false) :
    Registry.dumps_key env r .pyNone s' Registry.skipDefault = .ok .pyNone ∧
    Registry.dumps_value env r .pyNone s Registry.skipDefault = .ok .pyNone := by
  constructor
  · simp [Registry.dumps_key, hk]
  · simp [Registry.dumps_value, hv]

/-- Witness for C8 (amended): both channel defaults falsy, no override. -/
theorem dumps_none_amended_witness :
    Registry.dumps_key jsonEnv ⟨none, none⟩ .pyNone (some "raw") Registry.skipDefault =
      .ok .pyNone ∧
    Registry.dumps_value jsonEnv ⟨none, none⟩ .pyNone none Registry.skipDefault =
      .ok .pyNone :=
  dumps_none_amended jsonEnv ⟨none, none⟩ none (some "raw") (by decide) (by decide)

/-- Claim C9: in both decode operations, for every target type (none, text,
bytes, or a model type), when the value obtained after decoding and tag-based
reconstruction is already a model instance, it is returned as-is, with no
coercion applied to it. -/
theorem model_result_uncoerced (env : Env) (r : Registry) (raw d : PyVal) (A : ModelType)
    (s : CodecArg)
    (hnn : raw ≠ .pyNone) (hm : raw.isModel = false)
    (hlk : env.codecLoads (pyOr s r.key_serializer) raw = .ok d)
    (hlv : env.codecLoads (pyOr s r.value_serializer) raw = .ok d)
    (hns : maybe_namespace env d = some A) :
    ∀ typ : Option TargetType,
      Registry.loads_key env r typ raw s = .ok (.model A d) ∧
      Registry.loads_value env r typ raw s = .ok (.model A d) := by
  intro typ
  constructor
  · rcases typ with _ | tt
    · cases raw <;>
        simp_all [Registry.loads_key, Registry.loads_key_body, Registry._loads,
          maybe_reconstruct, constructModel, PyVal.isModel, want_str, want_bytes,
          Registry.wrapExcept]
    · cases tt <;> cases raw <;>
        simp_all [Registry.loads_key, Registry.loads_key_body, Registry._loads,
          maybe_reconstruct, constructModel, PyVal.isModel, want_str, want_bytes,
          Registry.wrapExcept]
  · rcases typ with _ | tt
    · cases raw <;>
        simp_all [Registry.loads_value, Registry.loads_value_body, Registry._loads,
          maybe_reconstruct, constructModel, PyVal.isModel, want_str, want_bytes,
          Registry.wrapExcept]
    · cases tt <;> cases raw <;>
        simp_all [Registry.loads_value, Registry.loads_value_body, Registry._loads,
          maybe_reconstruct, constructModel, PyVal.isModel, want_str, want_bytes,
          Registry.wrapExcept]

/-- Witness for C9: the identity codec decodes `record (some 1) 5`, which
reconstructs to an `mA` instance; with target type text (`tStr`) both decode
operations still return the model unchanged. -/
theorem model_result_uncoerced_witness :
    Registry.loads_key envId ⟨none, none⟩ (some .tStr) (.record (some 1) 5) none =
      .ok (.model mA (.record (some 1) 5)) ∧
    Registry.loads_value envId ⟨none, none⟩ (some .tStr) (.record (some 1) 5) none =
      .ok (.model mA (.record (some 1) 5)) :=
  model_result_uncoerced envId ⟨none, none⟩ (.record (some 1) 5) (.record (some 1) 5) mA none
    (by decide) (by decide) (by decide) (by decide) (by decide) (some .tStr)

/-- Claim C10: when no codec is resolved for `dumps_value` and the value is
neither a model nor raw bytes, the value is returned exactly as passed (no
bytes coercion, so the result need not be bytes), whereas `dumps_key` in its
no-codec branch applies bytes coercion (`want_bytes`) to its non-`None`
key. -/
theorem dumps_value_no_codec_passthrough (env : Env) (r : Registry) (v k : PyVal)
    (s s' : CodecArg)
    (hv : (pyOr s r.value_serializer).truthy = false)
    (hvm : v.isModel = false) (hvb : v.isBytes = false)
    (hk : r.key_serializer.truthy = false)
    (hkm : k.isModel = false) (hknn : k ≠ .pyNone) :
    Registry.dumps_value env r v s Registry.skipDefault = .ok v ∧
    Registry.dumps_key env r k s' Registry.skipDefault = want_bytes k := by
  constructor
  · cases v <;> simp_all [Registry.dumps_value, PyVal.isModel]
  · cases k <;> simp_all [Registry.dumps_key, PyVal.isModel, want_bytes]

/-- Witness for C10: with no codec resolved, a text value comes back from
`dumps_value` still as text (not bytes), while the same text key is coerced
to its byte encoding by `dumps_key`. -/
theorem dumps_value_no_codec_passthrough_witness :
    Registry.dumps_value envId ⟨none, none⟩ (.str "x") none Registry.skipDefault =
      .ok (.str "x") ∧
    Registry.dumps_key envId ⟨none, none⟩ (.str "x") none Registry.skipDefault =
      want_bytes (.str "x") :=
  dumps_value_no_codec_passthrough envId ⟨none, none⟩ (.str "x") (.str "x") none none
    (by decide) (by decide) (by decide) (by decide) (by decide) (by decide)

end FaustRegistry
